import Mathlib

/-!
Verification development for the order subsystem of the freelance-server
repository (an architecture-design marketplace backend).

The embedding below mirrors:
  - the Order schema, its pre-save hook and its instance methods
    (calculateTotals, addTrackingUpdate, processRefund) from the Order
    model file;
  - the order route handlers (create order, update status, add tracking
    update, process refund) from routes/orders.js.

Modelling choices:
  - numeric amounts (prices, subtotal, tax, total, refund amount) are
    exact rationals;
  - object identifiers are natural numbers;
  - the document store is a list of orders / designs; the pre-save hook's
    countDocuments over the [startOfDay, startOfDay+1day) window is the
    number of stored orders whose creation day equals the current local
    calendar day;
  - wall-clock instants (timestamps of tracking updates and refunds) are
    natural numbers supplied by the caller;
  - the external validator chain of each route is rendered as a boolean
    check; the third-party isEmail predicate (library code, not part of
    this repository) is abstracted as "contains an at-sign".
-/

namespace FreelanceServer

/-- Publication state of a design (Design model: status enum). -/
inductive DesignStatus
  | draft
  | published
  | archived
deriving DecidableEq

/-- The slice of a catalog design that order creation reads
(Design model: price, title, status). -/
structure Design where
  id : Nat
  title : String
  price : ℚ
  status : DesignStatus
deriving DecidableEq

/-- License kind of a purchased item (Order schema: items.license enum). -/
inductive License
  | personal
  | commercial
  | exclusive
deriving DecidableEq

/-- Payment method enum of the Order schema. -/
inductive PaymentMethod
  | stripe
  | paypal
  | bankTransfer
  | crypto
deriving DecidableEq

/-- Order status enum of the Order schema. -/
inductive OrderStatus
  | pending
  | processing
  | completed
  | cancelled
  | refunded
deriving DecidableEq

/-- Payment status enum of the Order schema. -/
inductive PaymentStatus
  | pending
  | paid
  | failed
  | refunded
deriving DecidableEq

/-- A line item as persisted on an order (Order schema: items). -/
structure OrderItem where
  design : Nat
  quantity : Nat
  price : ℚ
  license : License
deriving DecidableEq

/-- One entry of the tracking-update log (Order schema: tracking.updates). -/
structure TrackingUpdate where
  status : String
  location : Option String
  timestamp : Nat
  description : Option String
deriving DecidableEq

/-- The tracking subdocument of an order (Order schema: tracking). -/
structure Tracking where
  number : Option String
  carrier : Option String
  status : Option String
  updates : List TrackingUpdate
deriving DecidableEq

/-- The refund subdocument of an order (Order schema: refund). -/
structure RefundRecord where
  amount : ℚ
  reason : String
  processedAt : Nat
  processedBy : Nat
deriving DecidableEq

/-- A billing / shipping address; only the fields the create-order
validator inspects are carried. -/
structure Address where
  name : String
  email : String
deriving DecidableEq

/-- Local calendar date of the server (year as getFullYear; month already
1-based, i.e. getMonth() + 1; day as getDate()). -/
structure LocalDate where
  year : Nat
  month : Nat
  day : Nat
deriving DecidableEq

/-- An order document (Order schema).  createdDay records the local
calendar day of the creation timestamp assigned by the store. -/
structure Order where
  id : Nat
  orderNumber : String
  customer : Nat
  items : List OrderItem
  subtotal : ℚ
  tax : ℚ
  total : ℚ
  status : OrderStatus
  paymentStatus : PaymentStatus
  paymentMethod : PaymentMethod
  billingAddress : Address
  shippingAddress : Address
  notes : Option String
  tracking : Tracking
  refund : Option RefundRecord
  createdDay : LocalDate
deriving DecidableEq

/-! ### Order-number generation (pre-save hook) -/

/-- JS String.prototype.padStart (source: .padStart(2, '0') and
.padStart(3, '0')): prepend the fill character until the target width is
reached; a string already at least that wide is returned unchanged. -/
def padStart (w : Nat) (c : Char) (s : String) : String :=
  ⟨List.replicate (w - s.data.length) c ++ s.data⟩

/-- JS String.prototype.slice(-2) (source: year slicing): the last two
characters, or the whole string when it is shorter. -/
def sliceLastTwo (s : String) : String :=
  ⟨(s.data.reverse.take 2).reverse⟩

/-- Order-number string built by the pre-save hook from the current local
date and the count of orders already created today:
ORD + year.toString().slice(-2) + 2-padded month + 2-padded day
+ 3-padded (count + 1). -/
def genOrderNumber (d : LocalDate) (orderCount : Nat) : String :=
  "ORD" ++ sliceLastTwo (Nat.repr d.year)
        ++ padStart 2 '0' (Nat.repr d.month)
        ++ padStart 2 '0' (Nat.repr d.day)
        ++ padStart 3 '0' (Nat.repr (orderCount + 1))

/-- The pre-save hook's countDocuments({createdAt: {gte: todayStart,
lt: todayEnd}}): number of stored orders created on the given local day. -/
def ordersCreatedToday (db : List Order) (d : LocalDate) : Nat :=
  (db.filter (fun o => o.createdDay = d)).length

/-- The pre-save hook: a document being saved for the first time (isNew)
gets its order number from the current date and today's order count;
a re-saved document is left untouched. -/
def preSaveHook (db : List Order) (d : LocalDate) (isNew : Bool) (o : Order) :
    Order :=
  if isNew then
    { o with orderNumber := genOrderNumber d (ordersCreatedToday db d) }
  else o

/-! ### Order instance methods -/

/-- Sum of price * quantity over the line items (the reduce inside
calculateTotals and the accumulation loop of the create-order route). -/
def itemsSubtotal (items : List OrderItem) : ℚ :=
  (items.map (fun i => i.price * (i.quantity : ℚ))).sum

/-- orderSchema.methods.calculateTotals: recompute subtotal from the
items and total as subtotal + tax. -/
def calculateTotals (o : Order) : Order :=
  let s := itemsSubtotal o.items
  { o with subtotal := s, total := s + o.tax }

/-- orderSchema.methods.addTrackingUpdate: append one entry with the
current time and mirror its status into tracking.status. -/
def addTrackingUpdate (now : Nat) (st : String) (loc : Option String)
    (desc : Option String) (o : Order) : Order :=
  { o with tracking :=
      { o.tracking with
          status := some st,
          updates := o.tracking.updates ++
            [{ status := st, location := loc, timestamp := now,
               description := desc }] } }

/-- orderSchema.methods.processRefund: record the refund and force both
status and paymentStatus to refunded. -/
def processRefund (now : Nat) (amount : ℚ) (reason : String)
    (processedBy : Nat) (o : Order) : Order :=
  { o with
      refund := some
        { amount := amount, reason := reason, processedAt := now,
          processedBy := processedBy },
      status := OrderStatus.refunded,
      paymentStatus := PaymentStatus.refunded }

/-! ### Store primitives -/

/-- Design.findById over the catalog. -/
def findDesign (store : List Design) (id : Nat) : Option Design :=
  store.find? (fun d => d.id = id)

/-- Order.findById over the order collection. -/
def findOrder (db : List Order) (id : Nat) : Option Order :=
  db.find? (fun o => o.id = id)

/-- Persisting a re-saved document: replace the stored order with the
same id. -/
def replaceOrder (db : List Order) (o : Order) : List Order :=
  db.map (fun x => if x.id = o.id then o else x)

/-! ### Route: POST /api/orders (create order) -/

/-- A requested line item as validated by the route
(items.design, items.quantity, items.license). -/
structure ItemInput where
  design : Nat
  quantity : Nat
  license : License
deriving DecidableEq

/-- Request body of POST /api/orders. -/
structure CreateOrderBody where
  items : List ItemInput
  paymentMethod : PaymentMethod
  billingAddress : Address
  shippingAddress : Option Address
  notes : Option String
deriving DecidableEq

/-- The express-validator chain of the create-order route: items is a
non-empty array, every quantity is at least 1, the billing name is
non-empty and the billing email passes the (abstracted) isEmail check.
Design-id, license and payment-method well-formedness are carried by the
types of the embedding. -/
def validCreateBody (b : CreateOrderBody) : Bool :=
  decide (1 ≤ b.items.length)
    && b.items.all (fun i => decide (1 ≤ i.quantity))
    && !(b.billingAddress.name = "")
    && b.billingAddress.email.data.contains '@'

/-- Failure outcomes of the create-order route. -/
inductive CreateErr
  | validation
  | designNotFound (id : Nat)
  | designUnavailable (title : String)
deriving DecidableEq

/-- HTTP status the create-order route sends for each failure: every
branch responds with res.status(400). -/
def CreateErr.httpStatus : CreateErr → Nat
  | CreateErr.validation => 400
  | CreateErr.designNotFound _ => 400
  | CreateErr.designUnavailable _ => 400

/-- The per-item loop of the create-order route: resolve each design,
failing on a missing or unpublished one; otherwise snapshot its price
into the order item and accumulate the subtotal. -/
def resolveItems (store : List Design) :
    List ItemInput → Except CreateErr (List OrderItem × ℚ)
  | [] => Except.ok ([], 0)
  | i :: rest =>
    match findDesign store i.design with
    | none => Except.error (CreateErr.designNotFound i.design)
    | some d =>
      if d.status ≠ DesignStatus.published then
        Except.error (CreateErr.designUnavailable d.title)
      else
        match resolveItems store rest with
        | Except.error e => Except.error e
        | Except.ok (items, sub) =>
          Except.ok
            ({ design := d.id, quantity := i.quantity, price := d.price,
               license := i.license } :: items,
             d.price * (i.quantity : ℚ) + sub)

/-- Tax rate hardcoded in the create-order route (0.085). -/
def taxRate : ℚ := 85 / 1000

/-- POST /api/orders: validate, resolve the items, compute
subtotal / tax / total, build the order (shippingAddress defaulting to
billingAddress, status and paymentStatus at their schema defaults) and
save it, which runs the pre-save hook with isNew and appends the document
to the store.  newId names the fresh document id handed out by the
store. -/
def createOrderRoute (store : List Design) (db : List Order) (d : LocalDate)
    (newId : Nat) (user : Nat) (b : CreateOrderBody) :
    Except CreateErr (List Order × Order) :=
  if ¬ validCreateBody b then Except.error CreateErr.validation
  else
    match resolveItems store b.items with
    | Except.error e => Except.error e
    | Except.ok (orderItems, subtotal) =>
      let tax := subtotal * taxRate
      let total := subtotal + tax
      let fresh : Order :=
        { id := newId, orderNumber := "", customer := user,
          items := orderItems, subtotal := subtotal, tax := tax,
          total := total, status := OrderStatus.pending,
          paymentStatus := PaymentStatus.pending,
          paymentMethod := b.paymentMethod,
          billingAddress := b.billingAddress,
          shippingAddress := b.shippingAddress.getD b.billingAddress,
          notes := b.notes,
          tracking := { number := none, carrier := none, status := none,
                        updates := [] },
          refund := none, createdDay := d }
      let saved := preSaveHook db d true fresh
      Except.ok (db ++ [saved], saved)

/-- The order collection after a create-order request: extended by the
new document on success, untouched on failure. -/
def dbAfterCreate (store : List Design) (db : List Order) (d : LocalDate)
    (newId : Nat) (user : Nat) (b : CreateOrderBody) : List Order :=
  match createOrderRoute store db d newId user b with
  | Except.ok (db', _) => db'
  | Except.error _ => db

/-! ### Route: PUT /api/orders/:id/status -/

/-- Failure outcomes shared by the mutation routes. -/
inductive RouteErr
  | validation
  | notFound
  | amountExceedsTotal
deriving DecidableEq

/-- HTTP status of each mutation-route failure. -/
def RouteErr.httpStatus : RouteErr → Nat
  | RouteErr.validation => 400
  | RouteErr.notFound => 404
  | RouteErr.amountExceedsTotal => 400

/-- The isIn(['pending', ...]) check of the status validator, returning
the parsed enum value. -/
def parseOrderStatus : String → Option OrderStatus
  | "pending" => some OrderStatus.pending
  | "processing" => some OrderStatus.processing
  | "completed" => some OrderStatus.completed
  | "cancelled" => some OrderStatus.cancelled
  | "refunded" => some OrderStatus.refunded
  | _ => none

/-- The optional isIn(['pending', 'paid', 'failed', 'refunded']) check of
the paymentStatus validator. -/
def parsePaymentStatus : String → Option PaymentStatus
  | "pending" => some PaymentStatus.pending
  | "paid" => some PaymentStatus.paid
  | "failed" => some PaymentStatus.failed
  | "refunded" => some PaymentStatus.refunded
  | _ => none

/-- Validation step of the status route: status must parse; paymentStatus,
when present, must parse. -/
def validateStatusBody (statusStr : String) (payStr : Option String) :
    Option (OrderStatus × Option PaymentStatus) :=
  match parseOrderStatus statusStr with
  | none => none
  | some st =>
    match payStr with
    | none => some (st, none)
    | some p =>
      match parsePaymentStatus p with
      | none => none
      | some ps => some (st, some ps)

/-- The handler body: order.status = status; if (paymentStatus)
order.paymentStatus = paymentStatus. -/
def applyStatusUpdate (st : OrderStatus) (ps : Option PaymentStatus)
    (o : Order) : Order :=
  match ps with
  | some p => { o with status := st, paymentStatus := p }
  | none => { o with status := st }

/-- PUT /api/orders/:id/status: reject bad enums before touching the
store, 404 on a missing order, otherwise set the fields and re-save
(pre-save hook with isNew = false). -/
def updateStatusRoute (db : List Order) (d : LocalDate) (oid : Nat)
    (statusStr : String) (payStr : Option String) :
    Except RouteErr (List Order × Order) :=
  match validateStatusBody statusStr payStr with
  | none => Except.error RouteErr.validation
  | some (st, ps) =>
    match findOrder db oid with
    | none => Except.error RouteErr.notFound
    | some o =>
      let o' := preSaveHook db d false (applyStatusUpdate st ps o)
      Except.ok (replaceOrder db o', o')

/-! ### Route: POST /api/orders/:id/tracking -/

/-- Validator of the tracking route: status notEmpty. -/
def validTrackingBody (st : String) : Bool :=
  !(st = "")

/-- POST /api/orders/:id/tracking: validate, 404 on a missing order, then
addTrackingUpdate (whose save re-runs the hook with isNew = false). -/
def trackingRoute (db : List Order) (d : LocalDate) (now : Nat) (oid : Nat)
    (st : String) (loc : Option String) (desc : Option String) :
    Except RouteErr (List Order × Order) :=
  if ¬ validTrackingBody st then Except.error RouteErr.validation
  else
    match findOrder db oid with
    | none => Except.error RouteErr.notFound
    | some o =>
      let o' := preSaveHook db d false (addTrackingUpdate now st loc desc o)
      Except.ok (replaceOrder db o', o')

/-! ### Route: POST /api/orders/:id/refund -/

/-- Validator of the refund route: amount passes isFloat({min: 0}) —
any value at least 0 — and reason passes notEmpty. -/
def validRefundBody (amount : ℚ) (reason : String) : Bool :=
  decide (0 ≤ amount) && !(reason = "")

/-- POST /api/orders/:id/refund: validate, 404 on a missing order, reject
an amount above the order total, then processRefund (whose save re-runs
the hook with isNew = false). -/
def refundRoute (db : List Order) (d : LocalDate) (now : Nat) (adminId : Nat)
    (oid : Nat) (amount : ℚ) (reason : String) :
    Except RouteErr (List Order × Order) :=
  if ¬ validRefundBody amount reason then Except.error RouteErr.validation
  else
    match findOrder db oid with
    | none => Except.error RouteErr.notFound
    | some o =>
      if o.total < amount then Except.error RouteErr.amountExceedsTotal
      else
        let o' := preSaveHook db d false (processRefund now amount reason adminId o)
        Except.ok (replaceOrder db o', o')

/-- The order collection after a refund request: updated on success,
untouched on failure. -/
def dbAfterRefund (db : List Order) (d : LocalDate) (now : Nat)
    (adminId : Nat) (oid : Nat) (amount : ℚ) (reason : String) :
    List Order :=
  match refundRoute db d now adminId oid amount reason with
  | Except.ok (db', _) => db'
  | Except.error _ => db

/-! ### Observation helpers for order-number strings -/

/-- Numeric value of a decimal digit character. -/
def digitVal (c : Char) : Nat := c.toNat - 48

/-- Decimal value of a digit string. -/
def readDigits (cs : List Char) : Nat :=
  cs.foldl (fun a c => 10 * a + digitVal c) 0

/-- The last three characters of a character list. -/
def lastThreeChars (cs : List Char) : List Char :=
  (cs.reverse.take 3).reverse

/-- Numeric value of the last three characters of a string — the daily
sequence the spec reads off an order number. -/
def lastThreeVal (s : String) : Nat :=
  readDigits (lastThreeChars s.data)

/-- Full-shape check for the spec's order-number patterns: the string is
ORD followed by exactly k decimal digits. -/
def matchesORDDigits (k : Nat) (s : String) : Bool :=
  decide (s.data.take 3 = ['O', 'R', 'D'])
    && decide ((s.data.drop 3).length = k)
    && (s.data.drop 3).all Char.isDigit

/-! ### Sequential tracking calls -/

/-- Arguments of one addTrackingUpdate call, together with the wall-clock
instant at which it runs. -/
structure TrackingCall where
  time : Nat
  status : String
  location : Option String
  description : Option String
deriving DecidableEq

/-- The log entry a call appends. -/
def trackingEntry (c : TrackingCall) : TrackingUpdate :=
  { status := c.status, location := c.location, timestamp := c.time,
    description := c.description }

/-- Run a sequence of addTrackingUpdate calls left to right. -/
def applyTrackingCalls (o : Order) : List TrackingCall → Order
  | [] => o
  | c :: rest =>
    applyTrackingCalls
      (addTrackingUpdate c.time c.status c.location c.description o) rest

/-! ### Concrete data for evaluating the routes -/

/-- A published catalog design priced at 100. -/
def designAlpha : Design :=
  { id := 1, title := "Alpha Villa", price := 100,
    status := DesignStatus.published }

/-- A published catalog design priced at 50. -/
def designBeta : Design :=
  { id := 2, title := "Beta Loft", price := 50,
    status := DesignStatus.published }

/-- Demo catalog holding both designs. -/
def demoStore : List Design := [designAlpha, designBeta]

/-- Demo local date 2025-01-15. -/
def demoDate : LocalDate := { year := 2025, month := 1, day := 15 }

/-- Demo create-order request: design 1 once, design 2 twice. -/
def demoBody : CreateOrderBody :=
  { items :=
      [{ design := 1, quantity := 1, license := License.personal },
       { design := 2, quantity := 2, license := License.personal }],
    paymentMethod := PaymentMethod.stripe,
    billingAddress := { name := "Ada", email := "ada@example.com" },
    shippingAddress := none, notes := none }

/-- Placeholder order used as a match default. -/
def defaultOrder : Order :=
  { id := 0, orderNumber := "", customer := 0, items := [], subtotal := 0,
    tax := 0, total := 0, status := OrderStatus.pending,
    paymentStatus := PaymentStatus.pending,
    paymentMethod := PaymentMethod.stripe,
    billingAddress := { name := "", email := "" },
    shippingAddress := { name := "", email := "" }, notes := none,
    tracking := { number := none, carrier := none, status := none,
                  updates := [] },
    refund := none, createdDay := demoDate }

/-- A stored order: subtotal 200, tax 17, total 217, completed and paid,
with an empty tracking log. -/
def sampleOrder : Order :=
  { id := 7, orderNumber := "ORD250115001", customer := 3,
    items := [{ design := 1, quantity := 2, price := 100,
                license := License.personal }],
    subtotal := 200, tax := 17, total := 217,
    status := OrderStatus.completed, paymentStatus := PaymentStatus.paid,
    paymentMethod := PaymentMethod.stripe,
    billingAddress := { name := "Ada", email := "ada@example.com" },
    shippingAddress := { name := "Ada", email := "ada@example.com" },
    notes := none,
    tracking := { number := none, carrier := none, status := none,
                  updates := [] },
    refund := none, createdDay := demoDate }

/-- The (store, order) pair produced by the demo create-order request. -/
def demoCreatePair : List Order × Order :=
  match createOrderRoute demoStore [] demoDate 9 3 demoBody with
  | Except.ok p => p
  | Except.error _ => ([], defaultOrder)

/-- The order a successful mutation-route response carries. -/
def routeResultOrder (r : Except RouteErr (List Order × Order)) :
    Option Order :=
  match r with
  | Except.ok (_, o) => some o
  | Except.error _ => none

/-- Two sequential tracking calls with identical status strings. -/
def callsDemo : List TrackingCall :=
  [{ time := 5, status := "shipped", location := some "NYC",
     description := none },
   { time := 9, status := "shipped", location := none,
     description := some "still in transit" }]

/-! ### Decimal-rendering facts -/

theorem digitChar_isDigit (n : Nat) (h : n < 10) :
    (Nat.digitChar n).isDigit = true := by
  interval_cases n <;> decide

theorem toDigitsCore_digits (fuel : Nat) :
    ∀ n ds, (∀ c ∈ ds, c.isDigit = true) →
      ∀ c ∈ Nat.toDigitsCore 10 fuel n ds, c.isDigit = true := by
  induction fuel with
  | zero => intro n ds hds c hc; exact hds c hc
  | succ f ih =>
    intro n ds hds c hc
    rw [Nat.toDigitsCore] at hc
    have hd : (Nat.digitChar (n % 10)).isDigit = true :=
      digitChar_isDigit _ (Nat.mod_lt _ (by norm_num))
    by_cases h10 : n / 10 = 0
    · simp only [h10, if_pos rfl] at hc
      rcases List.mem_cons.mp hc with h | h
      · exact h ▸ hd
      · exact hds c h
    · simp only [if_neg h10] at hc
      refine ih _ _ ?_ c hc
      intro c' hc'
      rcases List.mem_cons.mp hc' with h | h
      · exact h ▸ hd
      · exact hds c' h

theorem toDigitsCore_length_ge (fuel : Nat) :
    ∀ n ds, 1 ≤ fuel →
      ds.length + 1 ≤ (Nat.toDigitsCore 10 fuel n ds).length := by
  induction fuel with
  | zero => intro n ds h; omega
  | succ f ih =>
    intro n ds _
    rw [Nat.toDigitsCore]
    by_cases h10 : n / 10 = 0
    · simp [h10]
    · simp only [if_neg h10]
      rcases Nat.eq_zero_or_pos f with hf | hf
      · subst hf; rw [Nat.toDigitsCore]; simp
      · have := ih (n / 10) (Nat.digitChar (n % 10) :: ds) hf
        simpa using le_trans (by simp) this

theorem repr_length_ge_two (n : Nat) (h : 10 ≤ n) :
    2 ≤ (Nat.repr n).data.length := by
  show 2 ≤ (Nat.toDigitsCore 10 (n + 1) n []).length
  rw [Nat.toDigitsCore]
  have h10 : n / 10 ≠ 0 := by omega
  simp only [if_neg h10]
  have := toDigitsCore_length_ge n (n / 10) [Nat.digitChar (n % 10)] (by omega)
  simpa using this

theorem repr_digits (n : Nat) :
    ∀ c ∈ (Nat.repr n).data, c.isDigit = true := by
  intro c hc
  exact toDigitsCore_digits (n + 1) n [] (by simp) c hc

theorem sliceLastTwo_length (s : String) (h : 2 ≤ s.data.length) :
    (sliceLastTwo s).data.length = 2 := by
  show ((s.data.reverse.take 2).reverse).length = 2
  rw [List.length_reverse, List.length_take, List.length_reverse]
  omega

theorem sliceLastTwo_digits (s : String)
    (h : ∀ c ∈ s.data, c.isDigit = true) :
    ∀ c ∈ (sliceLastTwo s).data, c.isDigit = true := by
  intro c hc
  have h1 : c ∈ s.data.reverse.take 2 := List.mem_reverse.mp hc
  have h2 : c ∈ s.data.reverse := List.take_subset 2 _ h1
  exact h c (List.mem_reverse.mp h2)

set_option maxRecDepth 10000 in
theorem pad3_spec : ∀ n < 1000,
    (padStart 3 '0' (Nat.repr n)).data.length = 3 ∧
    (∀ c ∈ (padStart 3 '0' (Nat.repr n)).data, c.isDigit = true) ∧
    readDigits (padStart 3 '0' (Nat.repr n)).data = n := by
  decide

set_option maxRecDepth 10000 in
theorem pad2_spec : ∀ n < 100,
    (padStart 2 '0' (Nat.repr n)).data.length = 2 ∧
    (∀ c ∈ (padStart 2 '0' (Nat.repr n)).data, c.isDigit = true) := by
  decide

theorem lastThreeChars_append (l1 l2 : List Char) (h : 3 ≤ l2.length) :
    lastThreeChars (l1 ++ l2) = lastThreeChars l2 := by
  unfold lastThreeChars
  rw [List.reverse_append, List.take_append_of_le_length (by simpa using h)]

theorem lastThreeChars_of_length_three (l : List Char) (h : l.length = 3) :
    lastThreeChars l = l := by
  unfold lastThreeChars
  rw [show (3 : Nat) = l.reverse.length by simp [h], List.take_length,
    List.reverse_reverse]

theorem genOrderNumber_data (d : LocalDate) (c : Nat) :
    (genOrderNumber d c).data =
      "ORD".data ++ (sliceLastTwo (Nat.repr d.year)).data
        ++ (padStart 2 '0' (Nat.repr d.month)).data
        ++ (padStart 2 '0' (Nat.repr d.day)).data
        ++ (padStart 3 '0' (Nat.repr (c + 1))).data := by
  simp [genOrderNumber, String.data_append]

theorem lastThreeVal_gen (d : LocalDate) (c : Nat) (h : c ≤ 998) :
    lastThreeVal (genOrderNumber d c) = c + 1 := by
  have hs := pad3_spec (c + 1) (by omega)
  unfold lastThreeVal
  rw [genOrderNumber_data, lastThreeChars_append _ _ (by rw [hs.1]),
    lastThreeChars_of_length_three _ hs.1]
  exact hs.2.2

/-! ### Route-level helper lemmas -/

theorem createErr_status (e : CreateErr) : CreateErr.httpStatus e = 400 := by
  cases e <;> rfl

theorem preSaveHook_not_new (db : List Order) (d : LocalDate) (o : Order) :
    preSaveHook db d false o = o := rfl

theorem resolveItems_subtotal (store : List Design) :
    ∀ inputs its sub, resolveItems store inputs = Except.ok (its, sub) →
      sub = itemsSubtotal its := by
  intro inputs
  induction inputs with
  | nil =>
    intro its sub h
    rw [resolveItems] at h
    cases h
    simp [itemsSubtotal]
  | cons i rest ih =>
    intro its sub h
    rw [resolveItems] at h
    cases hd : findDesign store i.design with
    | none => rw [hd] at h; cases h
    | some dg =>
      rw [hd] at h
      dsimp only at h
      by_cases hp : dg.status ≠ DesignStatus.published
      · rw [if_pos hp] at h; cases h
      · rw [if_neg hp] at h
        cases hr : resolveItems store rest with
        | error e => rw [hr] at h; cases h
        | ok p =>
          obtain ⟨its', sub'⟩ := p
          rw [hr] at h
          dsimp only at h
          cases h
          have hsub := ih its' sub' hr
          simp [itemsSubtotal] at hsub ⊢
          rw [hsub]

theorem resolveItems_err (store : List Design) :
    ∀ inputs (i : ItemInput), i ∈ inputs →
      (findDesign store i.design = none ∨
        ∃ dg, findDesign store i.design = some dg ∧
          dg.status ≠ DesignStatus.published) →
      ∃ e, resolveItems store inputs = Except.error e := by
  intro inputs
  induction inputs with
  | nil => intro i hi; cases hi
  | cons j rest ih =>
    intro i hi hbad
    rw [resolveItems]
    cases hd : findDesign store j.design with
    | none => exact ⟨_, rfl⟩
    | some dj =>
      dsimp only
      by_cases hp : dj.status ≠ DesignStatus.published
      · rw [if_pos hp]
        exact ⟨_, rfl⟩
      · rw [if_neg hp]
        rcases List.mem_cons.mp hi with hij | hmem
        · subst hij
          rcases hbad with hnone | ⟨dg, hdg, hdgp⟩
          · rw [hd] at hnone; cases hnone
          · rw [hd] at hdg
            cases hdg
            exact absurd hdgp hp
        · obtain ⟨e, he⟩ := ih i hmem hbad
          rw [he]
          exact ⟨e, rfl⟩

theorem applyTrackingCalls_updates (calls : List TrackingCall) :
    ∀ o : Order,
      (applyTrackingCalls o calls).tracking.updates =
        o.tracking.updates ++ calls.map trackingEntry := by
  induction calls with
  | nil => intro o; simp [applyTrackingCalls]
  | cons c rest ih =>
    intro o
    rw [applyTrackingCalls, ih]
    simp [addTrackingUpdate, trackingEntry]

theorem applyTrackingCalls_status (calls : List TrackingCall) :
    ∀ (o : Order) (c : TrackingCall), calls.getLast? = some c →
      (applyTrackingCalls o calls).tracking.status = some c.status := by
  induction calls with
  | nil => intro o c h; cases h
  | cons hd rest ih =>
    intro o c hlast
    cases rest with
    | nil =>
      simp only [List.getLast?_singleton, Option.some.injEq] at hlast
      subst hlast
      rw [applyTrackingCalls, applyTrackingCalls]
      rfl
    | cons h2 t2 =>
      rw [List.getLast?_cons_cons] at hlast
      rw [applyTrackingCalls]
      exact ih _ c hlast

theorem matchesORDDigits_of (k : Nat) (l : List Char) (hlen : l.length = k)
    (hdig : ∀ c ∈ l, c.isDigit = true) (s : String)
    (hdata : s.data = 'O' :: 'R' :: 'D' :: l) :
    matchesORDDigits k s = true := by
  unfold matchesORDDigits
  rw [hdata]
  simp only [Bool.and_eq_true, decide_eq_true_eq]
  refine ⟨⟨rfl, ?_⟩, ?_⟩
  · show l.length = k
    exact hlen
  · show l.all Char.isDigit = true
    exact List.all_eq_true.mpr hdig

/-! ### Claim theorems -/

/-- C1: every order persisted by the create-order route satisfies
subtotal = sum of price * quantity over its items, tax = subtotal * 0.085,
total = subtotal + tax, and the order is appended to the collection. -/
theorem createOrder_totals (store : List Design) (db : List Order)
    (d : LocalDate) (newId user : Nat) (b : CreateOrderBody)
    (db' : List Order) (o : Order)
    (hok : createOrderRoute store db d newId user b = Except.ok (db', o)) :
    o.subtotal = itemsSubtotal o.items ∧
    o.tax = o.subtotal * taxRate ∧
    o.total = o.subtotal + o.tax ∧
    db' = db ++ [o] := by
  unfold createOrderRoute at hok
  by_cases hv : validCreateBody b
  · rw [if_neg (not_not_intro hv)] at hok
    cases hr : resolveItems store b.items with
    | error e => rw [hr] at hok; cases hok
    | ok p =>
      obtain ⟨its, sub⟩ := p
      rw [hr] at hok
      dsimp only at hok
      cases hok
      exact ⟨resolveItems_subtotal store b.items its sub hr, rfl, rfl, rfl⟩
  · rw [if_pos hv] at hok
    cases hok

/-- Witness for C1: the two-item demo request (price 100 quantity 1,
price 50 quantity 2) produces subtotal 200, tax 17, total 217. -/
theorem createOrder_totals_witness :
    demoCreatePair.2.subtotal = itemsSubtotal demoCreatePair.2.items ∧
    demoCreatePair.2.tax = demoCreatePair.2.subtotal * taxRate ∧
    demoCreatePair.2.total = demoCreatePair.2.subtotal + demoCreatePair.2.tax ∧
    demoCreatePair.1 = [demoCreatePair.2] ∧
    demoCreatePair.2.subtotal = 200 ∧
    demoCreatePair.2.tax = 17 ∧
    demoCreatePair.2.total = 217 := by
  have h := createOrder_totals demoStore [] demoDate 9 3 demoBody
      demoCreatePair.1 demoCreatePair.2 rfl
  exact ⟨h.1, h.2.1, h.2.2.1, h.2.2.2, by with_unfolding_all rfl,
    by with_unfolding_all rfl, by with_unfolding_all rfl⟩

/-- C2 (amended): the order number is assigned at creation from the
current date and today's order count; for a daily count of at most 998
its pieces are a 2-digit year slice, 2-digit month, 2-digit day and a
3-digit zero-padded sequence equal to count + 1; the status, tracking and
refund routes never change it. -/
theorem orderNumber_assignment :
    (∀ store db d newId user b db' o,
        createOrderRoute store db d newId user b = Except.ok (db', o) →
        o.orderNumber = genOrderNumber d (ordersCreatedToday db d)) ∧
    (∀ (d : LocalDate) (count : Nat), 10 ≤ d.year → d.month < 100 →
        d.day < 100 → count ≤ 998 →
        (sliceLastTwo (Nat.repr d.year)).data.length = 2 ∧
        (padStart 2 '0' (Nat.repr d.month)).data.length = 2 ∧
        (padStart 2 '0' (Nat.repr d.day)).data.length = 2 ∧
        (padStart 3 '0' (Nat.repr (count + 1))).data.length = 3 ∧
        lastThreeVal (genOrderNumber d count) = count + 1) ∧
    (∀ db d oid statusStr payStr db' o' o,
        findOrder db oid = some o →
        updateStatusRoute db d oid statusStr payStr = Except.ok (db', o') →
        o'.orderNumber = o.orderNumber) ∧
    (∀ db d now oid st loc desc db' o' o,
        findOrder db oid = some o →
        trackingRoute db d now oid st loc desc = Except.ok (db', o') →
        o'.orderNumber = o.orderNumber) ∧
    (∀ db d now adminId oid amount reason db' o' o,
        findOrder db oid = some o →
        refundRoute db d now adminId oid amount reason = Except.ok (db', o') →
        o'.orderNumber = o.orderNumber) := by
  refine ⟨?_, ?_, ?_, ?_, ?_⟩
  · intro store db d newId user b db' o hok
    unfold createOrderRoute at hok
    by_cases hv : validCreateBody b
    · rw [if_neg (not_not_intro hv)] at hok
      cases hr : resolveItems store b.items with
      | error e => rw [hr] at hok; cases hok
      | ok p =>
        obtain ⟨its, sub⟩ := p
        rw [hr] at hok
        dsimp only at hok
        cases hok
        rfl
    · rw [if_pos hv] at hok
      cases hok
  · intro d count hy hm hd2 hc
    exact ⟨sliceLastTwo_length _ (repr_length_ge_two _ hy),
           (pad2_spec d.month hm).1, (pad2_spec d.day hd2).1,
           (pad3_spec (count + 1) (by omega)).1, lastThreeVal_gen d count hc⟩
  · intro db d oid statusStr payStr db' o' o hfind hrt
    unfold updateStatusRoute at hrt
    cases hval : validateStatusBody statusStr payStr with
    | none => rw [hval] at hrt; cases hrt
    | some q =>
      obtain ⟨st, ps⟩ := q
      rw [hval] at hrt
      dsimp only at hrt
      rw [hfind] at hrt
      dsimp only at hrt
      cases hrt
      cases ps <;> rfl
  · intro db d now oid st loc desc db' o' o hfind hrt
    unfold trackingRoute at hrt
    by_cases hv : validTrackingBody st
    · rw [if_neg (not_not_intro hv), hfind] at hrt
      dsimp only at hrt
      cases hrt
      rfl
    · rw [if_pos hv] at hrt
      cases hrt
  · intro db d now adminId oid amount reason db' o' o hfind hrt
    unfold refundRoute at hrt
    by_cases hv : validRefundBody amount reason
    · rw [if_neg (not_not_intro hv), hfind] at hrt
      dsimp only at hrt
      by_cases hgt : o.total < amount
      · rw [if_pos hgt] at hrt
        cases hrt
      · rw [if_neg hgt] at hrt
        cases hrt
        rfl
    · rw [if_pos hv] at hrt
      cases hrt

/-- Witness for C2: the first order of an empty day gets sequence 001;
on 2025-01-15 the 7th order carries sequence value 7, padded to width
3. -/
theorem orderNumber_assignment_witness :
    demoCreatePair.2.orderNumber = genOrderNumber demoDate 0 ∧
    lastThreeVal (genOrderNumber demoDate 6) = 7 ∧
    (padStart 3 '0' (Nat.repr 7)).data.length = 3 := by
  have h1 := orderNumber_assignment.1 demoStore [] demoDate 9 3 demoBody
      demoCreatePair.1 demoCreatePair.2 rfl
  have h2 := orderNumber_assignment.2.1 demoDate 6 (by decide) (by decide)
      (by decide) (by decide)
  exact ⟨h1, h2.2.2.2.2, h2.2.2.2.1⟩

/-- Counterexample for C2: on the day's 1000th order the padded sequence
has 4 digits, so the claimed ORD + 2 + 2 + 2 + 3 shape (11 characters)
fails: the generated string has 13 characters. -/
theorem orderNumber_overflow_counterexample :
    (padStart 3 '0' (Nat.repr (999 + 1))).data.length = 4 ∧
    genOrderNumber demoDate 999 = "ORD2501151000" ∧
    (genOrderNumber demoDate 999).data.length = 13 := by
  refine ⟨by decide, rfl, by decide⟩

/-- C3: processRefund records the refund with the given amount, reason,
time and admin, and unconditionally forces status and paymentStatus to
refunded. -/
theorem processRefund_effect (o : Order) (now : Nat) (amount : ℚ)
    (reason : String) (adminId : Nat) (h : amount ≤ o.total) :
    (processRefund now amount reason adminId o).refund =
      some { amount := amount, reason := reason, processedAt := now,
             processedBy := adminId } ∧
    (processRefund now amount reason adminId o).status =
      OrderStatus.refunded ∧
    (processRefund now amount reason adminId o).paymentStatus =
      PaymentStatus.refunded :=
  ⟨rfl, rfl, rfl⟩

/-- Witness for C3: a partial refund of 50 on the total-217 sample order
still flips both statuses to refunded. -/
theorem processRefund_effect_witness :
    (processRefund 99 50 "partial goodwill refund" 42 sampleOrder).refund =
      some { amount := 50, reason := "partial goodwill refund",
             processedAt := 99, processedBy := 42 } ∧
    (processRefund 99 50 "partial goodwill refund" 42 sampleOrder).status =
      OrderStatus.refunded ∧
    (processRefund 99 50 "partial goodwill refund" 42
        sampleOrder).paymentStatus = PaymentStatus.refunded :=
  processRefund_effect sampleOrder 99 50 "partial goodwill refund" 42
    (by norm_num [sampleOrder])

/-- C4 (amended): for a daily count of at most 998 and a plausible date,
the generated order number is ORD followed by exactly 9 decimal digits
(the spec's ORD backslash-d 8 undercounts by one), and the numeric value
of the last 3 digits is strictly increasing in the daily count. -/
theorem orderNumber_format_monotone :
    (∀ (d : LocalDate) (count : Nat), 10 ≤ d.year → d.month < 100 →
        d.day < 100 → count ≤ 998 →
        matchesORDDigits 9 (genOrderNumber d count) = true) ∧
    (∀ (d : LocalDate) (j k : Nat), j < k → k ≤ 998 →
        lastThreeVal (genOrderNumber d j) < lastThreeVal (genOrderNumber d k)) := by
  constructor
  · intro d count hy hm hd2 hc
    have hylen := sliceLastTwo_length _ (repr_length_ge_two _ hy)
    have hydig := sliceLastTwo_digits _ (repr_digits d.year)
    have hm2 := pad2_spec d.month hm
    have hd22 := pad2_spec d.day hd2
    have hs3 := pad3_spec (count + 1) (by omega)
    refine matchesORDDigits_of 9
      ((sliceLastTwo (Nat.repr d.year)).data ++
        ((padStart 2 '0' (Nat.repr d.month)).data ++
          ((padStart 2 '0' (Nat.repr d.day)).data ++
            (padStart 3 '0' (Nat.repr (count + 1))).data))) ?_ ?_ _ ?_
    · rw [List.length_append, List.length_append, List.length_append,
        hylen, hm2.1, hd22.1, hs3.1]
    · intro c hcm
      rcases List.mem_append.mp hcm with h1 | h1
      · exact hydig c h1
      rcases List.mem_append.mp h1 with h2 | h2
      · exact hm2.2 c h2
      rcases List.mem_append.mp h2 with h3 | h3
      · exact hd22.2 c h3
      · exact hs3.2.1 c h3
    · rw [genOrderNumber_data]
      simp [List.append_assoc]
  · intro d j k hjk hk
    rw [lastThreeVal_gen d j (by omega), lastThreeVal_gen d k hk]
    omega

/-- Witness for C4: the first two orders of 2025-01-15 have the 9-digit
shape and sequence values 1 < 2. -/
theorem orderNumber_format_monotone_witness :
    matchesORDDigits 9 (genOrderNumber demoDate 0) = true ∧
    lastThreeVal (genOrderNumber demoDate 0) <
      lastThreeVal (genOrderNumber demoDate 1) :=
  ⟨orderNumber_format_monotone.1 demoDate 0 (by decide) (by decide)
      (by decide) (by decide),
   orderNumber_format_monotone.2 demoDate 0 1 (by decide) (by decide)⟩

/-- Counterexample for C4: the spec's own example order (7th order on
2025-01-15) is ORD followed by 9 digits, never exactly 8; and at the
999 to 1000 rollover the last three digits drop from 999 to 000, so
strict growth fails. -/
theorem orderNumber_format_counterexample :
    genOrderNumber demoDate 6 = "ORD250115007" ∧
    matchesORDDigits 8 (genOrderNumber demoDate 6) = false ∧
    lastThreeVal (genOrderNumber demoDate 998) = 999 ∧
    lastThreeVal (genOrderNumber demoDate 999) = 0 ∧
    ¬ (lastThreeVal (genOrderNumber demoDate 998) <
        lastThreeVal (genOrderNumber demoDate 999)) := by
  refine ⟨rfl, by decide, by decide, by decide, by decide⟩

/-- C5: a refund request whose amount exceeds the order total is rejected
with HTTP 400 before processRefund runs, leaving the collection
unchanged. -/
theorem refund_exceeds_total_rejected (db : List Order) (d : LocalDate)
    (now adminId oid : Nat) (amount : ℚ) (reason : String) (o : Order)
    (hfind : findOrder db oid = some o)
    (hvalid : validRefundBody amount reason = true)
    (hgt : o.total < amount) :
    refundRoute db d now adminId oid amount reason =
      Except.error RouteErr.amountExceedsTotal ∧
    RouteErr.httpStatus RouteErr.amountExceedsTotal = 400 ∧
    dbAfterRefund db d now adminId oid amount reason = db := by
  have hroute : refundRoute db d now adminId oid amount reason =
      Except.error RouteErr.amountExceedsTotal := by
    unfold refundRoute
    rw [if_neg (not_not_intro hvalid), hfind]
    dsimp only
    rw [if_pos hgt]
  exact ⟨hroute, rfl, by unfold dbAfterRefund; rw [hroute]⟩

/-- Witness for C5: asking 300 back on the total-217 sample order is
rejected and the stored order survives untouched. -/
theorem refund_exceeds_total_rejected_witness :
    refundRoute [sampleOrder] demoDate 99 42 7 300 "requested too much" =
      Except.error RouteErr.amountExceedsTotal ∧
    RouteErr.httpStatus RouteErr.amountExceedsTotal = 400 ∧
    dbAfterRefund [sampleOrder] demoDate 99 42 7 300 "requested too much" =
      [sampleOrder] :=
  refund_exceeds_total_rejected [sampleOrder] demoDate 99 42 7 300
    "requested too much" sampleOrder rfl rfl (by norm_num [sampleOrder])

/-- C6: a sequence of addTrackingUpdate calls appends exactly one entry
per call, in call order, each stamped with its call time, removing
nothing, and tracking.status mirrors the last call. -/
theorem tracking_updates_append (o : Order) (calls : List TrackingCall)
    (c : TrackingCall) (hlast : calls.getLast? = some c) :
    (applyTrackingCalls o calls).tracking.updates =
      o.tracking.updates ++ calls.map trackingEntry ∧
    (applyTrackingCalls o calls).tracking.updates.length =
      o.tracking.updates.length + calls.length ∧
    (applyTrackingCalls o calls).tracking.status = some c.status := by
  refine ⟨applyTrackingCalls_updates calls o, ?_,
    applyTrackingCalls_status calls o c hlast⟩
  rw [applyTrackingCalls_updates calls o]
  simp

/-- Witness for C6: two calls with the identical status string on the
empty-log sample order yield a log of length 2 and status shipped. -/
theorem tracking_updates_append_witness :
    (applyTrackingCalls sampleOrder callsDemo).tracking.updates =
      sampleOrder.tracking.updates ++ callsDemo.map trackingEntry ∧
    (applyTrackingCalls sampleOrder callsDemo).tracking.updates.length =
      sampleOrder.tracking.updates.length + 2 ∧
    (applyTrackingCalls sampleOrder callsDemo).tracking.status =
      some "shipped" := by
  have h := tracking_updates_append sampleOrder callsDemo
      { time := 9, status := "shipped", location := none,
        description := some "still in transit" } (by decide)
  exact ⟨h.1, h.2.1, h.2.2⟩

/-- C7 (amended): when any requested design is missing or unpublished the
create-order route fails with HTTP 400 — the code sends 400, not 404,
for a missing design — and persists nothing. -/
theorem createOrder_design_failures (store : List Design) (db : List Order)
    (d : LocalDate) (newId user : Nat) (b : CreateOrderBody) (i : ItemInput)
    (hmem : i ∈ b.items)
    (hbad : findDesign store i.design = none ∨
      ∃ dg, findDesign store i.design = some dg ∧
        dg.status ≠ DesignStatus.published) :
    ∃ e, createOrderRoute store db d newId user b = Except.error e ∧
      CreateErr.httpStatus e = 400 ∧
      dbAfterCreate store db d newId user b = db := by
  by_cases hv : validCreateBody b
  · obtain ⟨e, he⟩ := resolveItems_err store b.items i hmem hbad
    have hroute : createOrderRoute store db d newId user b =
        Except.error e := by
      unfold createOrderRoute
      rw [if_neg (not_not_intro hv), he]
    exact ⟨e, hroute, createErr_status e, by unfold dbAfterCreate; rw [hroute]⟩
  · have hroute : createOrderRoute store db d newId user b =
        Except.error CreateErr.validation := by
      unfold createOrderRoute
      rw [if_pos hv]
    exact ⟨_, hroute, rfl, by unfold dbAfterCreate; rw [hroute]⟩

/-- Witness for C7: with design 1 absent from the catalog the demo
request fails and the empty collection stays empty. -/
theorem createOrder_design_failures_witness :
    Except.isOk (createOrderRoute [designBeta] [] demoDate 9 3 demoBody) =
      false ∧
    dbAfterCreate [designBeta] [] demoDate 9 3 demoBody = [] := by
  obtain ⟨e, he, _, hdb⟩ := createOrder_design_failures [designBeta] []
    demoDate 9 3 demoBody (⟨1, 1, License.personal⟩ : ItemInput)
    (by decide) (Or.inl (by decide))
  refine ⟨?_, hdb⟩
  rw [he]
  rfl

/-- Counterexample for C7: the missing-design failure carries HTTP status
400, not the claimed 404. -/
theorem createOrder_missing_design_http400 :
    createOrderRoute [designBeta] [] demoDate 9 3 demoBody =
      Except.error (CreateErr.designNotFound 1) ∧
    CreateErr.httpStatus (CreateErr.designNotFound 1) = 400 ∧
    CreateErr.httpStatus (CreateErr.designNotFound 1) ≠ 404 ∧
    dbAfterCreate [designBeta] [] demoDate 9 3 demoBody = [] := by
  refine ⟨rfl, rfl, by decide, rfl⟩

/-- C8: the admin status route sets any target status from any current
status, leaves paymentStatus alone when it is omitted, rejects an invalid
enum value with 400 before any lookup, and answers 404 for a missing
order. -/
theorem updateStatus_permissive (db : List Order) (d : LocalDate) (oid : Nat)
    (o : Order) (stStr badStr : String) (st : OrderStatus)
    (payStr : Option String) (hfind : findOrder db oid = some o)
    (hst : parseOrderStatus stStr = some st)
    (hbad : parseOrderStatus badStr = none) :
    (∃ o', updateStatusRoute db d oid stStr none =
        Except.ok (replaceOrder db o', o') ∧
      o'.status = st ∧ o'.paymentStatus = o.paymentStatus) ∧
    (updateStatusRoute db d oid badStr payStr =
        Except.error RouteErr.validation ∧
      RouteErr.httpStatus RouteErr.validation = 400) ∧
    (∀ noid, findOrder db noid = none →
      updateStatusRoute db d noid stStr none =
          Except.error RouteErr.notFound ∧
        RouteErr.httpStatus RouteErr.notFound = 404) := by
  refine ⟨?_, ⟨?_, rfl⟩, ?_⟩
  · refine ⟨{ o with status := st }, ?_, rfl, rfl⟩
    unfold updateStatusRoute validateStatusBody
    rw [hst, hfind]
    rfl
  · unfold updateStatusRoute validateStatusBody
    rw [hbad]
  · intro noid hn
    refine ⟨?_, rfl⟩
    unfold updateStatusRoute validateStatusBody
    rw [hst, hn]

/-- Witness for C8: moving the completed sample order back to pending
succeeds with paymentStatus still paid; the unknown value shipped is
rejected; order id 8 is not found. -/
theorem updateStatus_permissive_witness :
    (routeResultOrder (updateStatusRoute [sampleOrder] demoDate 7 "pending"
        none)).map (fun o => (o.status, o.paymentStatus)) =
      some (OrderStatus.pending, PaymentStatus.paid) ∧
    updateStatusRoute [sampleOrder] demoDate 7 "shipped" (some "paid") =
      Except.error RouteErr.validation ∧
    updateStatusRoute [sampleOrder] demoDate 8 "pending" none =
      Except.error RouteErr.notFound := by
  have h := updateStatus_permissive [sampleOrder] demoDate 7 sampleOrder
      "pending" "shipped" OrderStatus.pending (some "paid") (by decide)
      (by decide) (by decide)
  obtain ⟨⟨o', ho', hst', hps'⟩, ⟨hbadE, _⟩, hnf⟩ := h
  refine ⟨?_, hbadE, (hnf 8 (by decide)).1⟩
  rw [ho']
  simp [routeResultOrder, hst', hps', sampleOrder]

/-- C9 (code defect): the refund validator accepts amount 0 — isFloat
with min 0 — so a zero-amount refund on the sample order is processed:
the refund record is written and both statuses flip to refunded, although
the validator's own message and the spec demand a positive amount. -/
theorem refund_zero_amount_processed :
    routeResultOrder (refundRoute [sampleOrder] demoDate 99 42 7 0
        "customer complaint") =
      some (processRefund 99 0 "customer complaint" 42 sampleOrder) ∧
    (processRefund 99 0 "customer complaint" 42 sampleOrder).refund =
      some { amount := 0, reason := "customer complaint", processedAt := 99,
             processedBy := 42 } ∧
    (processRefund 99 0 "customer complaint" 42 sampleOrder).status =
      OrderStatus.refunded ∧
    (processRefund 99 0 "customer complaint" 42 sampleOrder).paymentStatus =
      PaymentStatus.refunded :=
  ⟨rfl, rfl, rfl, rfl⟩

/-- C10: processRefund touches only refund, status and paymentStatus;
items, subtotal, tax, total, orderNumber, customer, paymentMethod and
tracking are untouched. -/
theorem processRefund_frame (now : Nat) (amount : ℚ) (reason : String)
    (adminId : Nat) (o : Order) :
    (processRefund now amount reason adminId o).items = o.items ∧
    (processRefund now amount reason adminId o).subtotal = o.subtotal ∧
    (processRefund now amount reason adminId o).tax = o.tax ∧
    (processRefund now amount reason adminId o).total = o.total ∧
    (processRefund now amount reason adminId o).orderNumber = o.orderNumber ∧
    (processRefund now amount reason adminId o).customer = o.customer ∧
    (processRefund now amount reason adminId o).paymentMethod =
      o.paymentMethod ∧
    (processRefund now amount reason adminId o).tracking = o.tracking :=
  ⟨rfl, rfl, rfl, rfl, rfl, rfl, rfl, rfl⟩

end FreelanceServer
